import Mathlib

/-!
Verification of the campus social-network backend (friendship graph,
friend-request state machine, reactions, comments, and the home feed).

The definitions below are a shallow embedding of the Python/SQLAlchemy
source.  Each table is a list of rows; SQL `first()` becomes `List.find?`,
`WHERE` filters become `List.filter`, `DELETE` becomes filtering the
complement, ORM attribute updates become `List.map` keyed on the primary
key, and the Python `set` comprehensions become `List.dedup`.
-/

namespace CampusCrush

/-- Row of the `friendships` table (`app/modules/friendships/models/friendship.py`).
The primary key is the ordered pair `(user_id, friend_id)`; the unused
`created_at` column is omitted. -/
structure FriendshipRow where
  user_id : String
  friend_id : String
deriving DecidableEq, Repr

/-- Row of the `friendship_requests` table. -/
structure FriendshipRequestRow where
  id : String
  sender_id : String
  receiver_id : String
  status : String
deriving DecidableEq, Repr

/-- Row of the `users` table; only the primary key is relevant to the claims. -/
structure UserRow where
  id : String
deriving DecidableEq, Repr

/-- Row of the `posts` table; `created_at` is modelled as a natural number. -/
structure PostRow where
  id : String
  author_id : String
  created_at : Nat
deriving DecidableEq, Repr

/-- Row of the `comments` table. -/
structure CommentRow where
  id : String
  content : String
  author_id : String
  post_id : String
  parent_id : Option String
deriving DecidableEq, Repr

/-- Row of the `reactions` table. -/
structure ReactionRow where
  id : String
  reaction_type : String
  user_id : String
  post_id : String
deriving DecidableEq, Repr

/-- The database state: one list per table. -/
structure DB where
  users : List UserRow := []
  posts : List PostRow := []
  comments : List CommentRow := []
  reactions : List ReactionRow := []
  friendships : List FriendshipRow := []
  friendship_requests : List FriendshipRequestRow := []
deriving DecidableEq, Repr

/-- HTTP-level errors raised by the routers (`HTTPException`). -/
inductive ApiError where
  | notFound (detail : String)
  | badRequest (detail : String)
  | forbidden (detail : String)
deriving DecidableEq, Repr

/-- `get_user` (`user_management/services/user.py`): first users row with the id. -/
def get_user (db : DB) (user_id : String) : Option UserRow :=
  db.users.find? (fun u => u.id == user_id)

/-! ## Friendship service (`friendships/services/friendship.py`) -/

/-- `get_friend_request`: first request row with the given sender and receiver
(no status filter). -/
def get_friend_request (db : DB) (sender_id receiver_id : String) :
    Option FriendshipRequestRow :=
  db.friendship_requests.find?
    (fun q => q.sender_id == sender_id && q.receiver_id == receiver_id)

/-- `get_friend_request_by_id`: first request row with the given primary key. -/
def get_friend_request_by_id (db : DB) (request_id : String) :
    Option FriendshipRequestRow :=
  db.friendship_requests.find? (fun q => q.id == request_id)

/-- The Bool form of `get_bidirectional_friendship_filter`. -/
def bidirB (user_id friend_id : String) (f : FriendshipRow) : Bool :=
  (f.user_id == user_id && f.friend_id == friend_id) ||
  (f.user_id == friend_id && f.friend_id == user_id)

/-- `get_friendship`: first friendships row matching the bidirectional filter. -/
def get_friendship (db : DB) (user_id friend_id : String) : Option FriendshipRow :=
  db.friendships.find? (bidirB user_id friend_id)

/-- `check_friendship`: whether `get_friendship` found a row. -/
def check_friendship (db : DB) (user_id friend_id : String) : Bool :=
  (get_friendship db user_id friend_id).isSome

/-- `create_friendship`: if a row already exists in either direction, return
`false` without changes; otherwise insert both directed rows inside one
transaction.  The table has the check constraint `user_id != friend_id`
(`no_self_friendship`), so a self-insertion aborts the transaction, which the
`except` branch turns into `false` with the state rolled back. -/
def create_friendship (db : DB) (user_id friend_id : String) : DB × Bool :=
  if (get_friendship db user_id friend_id).isSome then (db, false)
  else if user_id == friend_id then (db, false)
  else
    ({db with friendships :=
        db.friendships ++ [⟨user_id, friend_id⟩, ⟨friend_id, user_id⟩]}, true)

/-- The Bool form of the request filter used by `remove_friendship`:
a request row between the pair, in either direction. -/
def betweenReqB (user_id friend_id : String) (q : FriendshipRequestRow) : Bool :=
  (q.sender_id == user_id && q.receiver_id == friend_id) ||
  (q.sender_id == friend_id && q.receiver_id == user_id)

/-- `remove_friendship`: inside one transaction, delete the friendship rows in
both directions and every request row between the pair. -/
def remove_friendship (db : DB) (user_id friend_id : String) : DB × Bool :=
  ({db with
      friendships := db.friendships.filter (fun f => !(bidirB user_id friend_id f))
      friendship_requests :=
        db.friendship_requests.filter (fun q => !(betweenReqB user_id friend_id q))},
   true)

/-- `delete_friend_request`: delete the given request row (by primary key). -/
def delete_friend_request (db : DB) (fr : FriendshipRequestRow) : DB :=
  {db with friendship_requests :=
      db.friendship_requests.filter (fun q => !(q.id == fr.id))}

/-- `create_friend_request` (service layer).  Arguments follow the source:
the receiver comes from the request schema, the sender is the caller.
If a same-direction request exists it is returned unchanged; if a
reverse-direction request exists it is marked accepted (by primary key) and
the friendship is created; otherwise a new pending row is inserted with a
fresh id `new_id`. -/
def create_friend_request (db : DB) (receiver_id sender_id new_id : String) :
    DB × FriendshipRequestRow :=
  match get_friend_request db sender_id receiver_id with
  | some existing => (db, existing)
  | none =>
    match get_friend_request db receiver_id sender_id with
    | some rev =>
      let reqs := db.friendship_requests.map
        (fun q => if q.id == rev.id then {q with status := "accepted"} else q)
      let db1 := {db with friendship_requests := reqs}
      let db2 := (create_friendship db1 sender_id receiver_id).1
      (db2, {rev with status := "accepted"})
    | none =>
      let fr : FriendshipRequestRow := ⟨new_id, sender_id, receiver_id, "pending"⟩
      ({db with friendship_requests := db.friendship_requests ++ [fr]}, fr)

/-- `update_friend_request`: set the status of the request row (by primary
key); if the new status is `accepted`, also create the friendship. -/
def update_friend_request (db : DB) (req : FriendshipRequestRow)
    (new_status : String) : DB × FriendshipRequestRow :=
  let reqs := db.friendship_requests.map
    (fun q => if q.id == req.id then {q with status := new_status} else q)
  let db1 := {db with friendship_requests := reqs}
  let db2 := if new_status == "accepted" then
      (create_friendship db1 req.sender_id req.receiver_id).1
    else db1
  (db2, {req with status := new_status})

/-- The request-table update performed by the auto-accept branch of
`create_friend_request`: mark the reverse request (by primary key) accepted. -/
def accept_reverse_requests (db : DB) (rev_id : String) :
    List FriendshipRequestRow :=
  db.friendship_requests.map
    (fun q => if q.id == rev_id then {q with status := "accepted"} else q)

/-- `get_friends`.  The selected column: the source writes the Python
conditional expression
`Friendship.friend_id if Friendship.user_id == user_id else Friendship.user_id`.
Its condition is a SQLAlchemy `BinaryExpression` built at query-construction
time, whose truth value compares the hashes of the two operands (a column
object versus a string), which are different, so the conditional always takes
the `else` branch and the query selects the `user_id` column of every matching
row.  Rows `(user_id = caller)` therefore yield the caller id, removed by the
`!= user_id` guard, and only rows of the form `(B, caller)` contribute `B`.
The whole body runs under `try`/`except`; any raised error (modelled by an
`Except.error` query outcome for the friendships fetch) yields `[]`.
Friend ids whose user record is absent are skipped (`if friend:`). -/
def get_friends (queryOutcome : Except String (List FriendshipRow))
    (users : List UserRow) (user_id : String) : List UserRow :=
  match queryOutcome with
  | .error _ => []
  | .ok rows =>
    let matching := rows.filter
      (fun f => f.user_id == user_id || f.friend_id == user_id)
    let selected := matching.map (fun f => f.user_id)
    let all_friend_ids := (selected.filter (fun i => !(i == user_id))).dedup
    all_friend_ids.filterMap
      (fun i => users.find? (fun u => u.id == i))

/-! ## Friendships router (`friendships/api/router.py`) -/

/-- `send_friend_request` endpoint.  Guard order follows the source:
receiver must exist; no self-request; not already friends; no same-direction
request (any status); no reverse-direction request (any status); then the
service `create_friend_request` runs.  The notification emission is a
swallowed side effect on the notifications table and is omitted. -/
def send_friend_request (db : DB) (current_user_id receiver_id new_id : String) :
    Except ApiError (DB × FriendshipRequestRow) :=
  if !(db.users.any (fun u => u.id == receiver_id)) then
    .error (.notFound "User not found")
  else if current_user_id == receiver_id then
    .error (.badRequest "Cannot send friend request to yourself")
  else if check_friendship db current_user_id receiver_id then
    .error (.badRequest "Already friends with this user")
  else if (get_friend_request db current_user_id receiver_id).isSome then
    .error (.badRequest "Friend request already sent")
  else if (get_friend_request db receiver_id current_user_id).isSome then
    .error (.badRequest "This user has already sent you a friend request")
  else
    .ok (create_friend_request db receiver_id current_user_id new_id)

/-- `cancel_friend_request` endpoint: the request must exist and the caller
must be its sender (no status restriction); the row is then deleted. -/
def cancel_friend_request (db : DB) (request_id current_user_id : String) :
    Except ApiError (DB × FriendshipRequestRow) :=
  match get_friend_request_by_id db request_id with
  | none => .error (.notFound "Friend request not found")
  | some fr =>
    if !(fr.sender_id == current_user_id) then
      .error (.forbidden "Not enough permissions")
    else
      .ok (delete_friend_request db fr, fr)

/-! ## One-way friendship repair (`user_management/api/router.py`) -/

/-- The mirror of a directed friendship row. -/
def mirrorRow (f : FriendshipRow) : FriendshipRow :=
  ⟨f.friend_id, f.user_id⟩

/-- `_fix_one_way_friendships`: collect the set of `(user_id, friend_id)`
pairs (a Python set: duplicates collapse), and for every pair whose mirror is
absent insert the mirror row. -/
def fix_one_way_friendships (t : List FriendshipRow) : List FriendshipRow :=
  let pairs := t.dedup
  let missing := pairs.filter (fun f => !(pairs.contains (mirrorRow f)))
  t ++ missing.map mirrorRow

/-! ## Reactions service (`posts/reactions/services/reaction.py`) -/

/-- The fixed enumeration accepted by the `ReactionCreate` schema validator. -/
def allowedReactionTypes : List String :=
  ["like", "love", "haha", "wow", "sad", "angry"]

/-- `get_reaction`: first reaction row of the `(user, post)` pair. -/
def get_reaction (db : DB) (user_id post_id : String) : Option ReactionRow :=
  db.reactions.find? (fun r => r.user_id == user_id && r.post_id == post_id)

/-- `create_or_update_reaction`: if the user already reacted to the post,
overwrite the `reaction_type` of that row (by primary key); otherwise insert
a new row with a fresh id.  The notification side effect is omitted. -/
def create_or_update_reaction (db : DB) (post_id reaction_type user_id new_id :
    String) : DB × ReactionRow :=
  match get_reaction db user_id post_id with
  | some existing =>
    let updated := db.reactions.map
      (fun r => if r.id == existing.id then {r with reaction_type := reaction_type} else r)
    ({db with reactions := updated}, {existing with reaction_type := reaction_type})
  | none =>
    let r : ReactionRow := ⟨new_id, reaction_type, user_id, post_id⟩
    ({db with reactions := db.reactions ++ [r]}, r)

/-! ## Comments (`posts/comments`) -/

/-- `create_comment` (service): insert the comment row with a fresh id. -/
def create_comment (db : DB) (content post_id : String) (parent_id : Option String)
    (author_id new_id : String) : DB × CommentRow :=
  let c : CommentRow := ⟨new_id, content, author_id, post_id, parent_id⟩
  ({db with comments := db.comments ++ [c]}, c)

/-- `_validate_post` (router helper): the post must exist. -/
def validate_post (db : DB) (post_id : String) : Except ApiError Unit :=
  if db.posts.any (fun p => p.id == post_id) then .ok () else
    .error (.notFound "Post not found")

/-- `_validate_comment` (router helper): the comment must exist, and when a
post id is supplied (the Python guard `if post_id` is true exactly for a
non-empty string) it must belong to that post. -/
def validate_comment (db : DB) (comment_id : String) (post_id : String) :
    Except ApiError CommentRow :=
  match db.comments.find? (fun c => c.id == comment_id) with
  | none => .error (.notFound "Comment not found")
  | some c =>
    if post_id != "" && c.post_id != post_id then
      .error (.badRequest "Comment does not belong to the specified post")
    else .ok c

/-- `create_new_comment` endpoint: validate the post; when the submitted
`parent_id` is truthy (non-null and non-empty) validate the parent against the
post; then create the comment.  No check inspects the parent `parent_id`
field. -/
def create_new_comment (db : DB) (post_id content : String)
    (parent_id : Option String) (author_id new_id : String) :
    Except ApiError (DB × CommentRow) :=
  match validate_post db post_id with
  | .error e => .error e
  | .ok _ =>
    match parent_id with
    | some pid =>
      if pid != "" then
        match validate_comment db pid post_id with
        | .error e => .error e
        | .ok _ => .ok (create_comment db content post_id (some pid) author_id new_id)
      else .ok (create_comment db content post_id (some pid) author_id new_id)
    | none => .ok (create_comment db content post_id none author_id new_id)

/-! ## Home feed (`home_feed/services/feed.py`) -/

/-- `_get_friend_ids`: the query selects
`coalesce(Friendship.friend_id, Friendship.user_id)` over the rows matching
either direction.  `friend_id` is a primary-key column and never NULL, so the
coalesce always yields `friend_id`; the comprehension then drops values equal
to the caller id and collapses duplicates (a Python set). -/
def feed_get_friend_ids (db : DB) (user_id : String) : List String :=
  let rows := db.friendships.filter
    (fun f => f.user_id == user_id || f.friend_id == user_id)
  let selected := rows.map (fun f => f.friend_id)
  (selected.filter (fun i => !(i == user_id))).dedup

/-- Insertion step for the `ORDER BY created_at DESC` sort. -/
def insertByCreatedDesc (p : PostRow) : List PostRow → List PostRow
  | [] => [p]
  | q :: qs =>
    if p.created_at ≥ q.created_at then p :: q :: qs
    else q :: insertByCreatedDesc p qs

/-- `ORDER BY created_at DESC` as an insertion sort. -/
def sortByCreatedDesc : List PostRow → List PostRow
  | [] => []
  | p :: ps => insertByCreatedDesc p (sortByCreatedDesc ps)

/-- The row set of the two chained LEFT OUTER JOINs of `_build_feed_query`
for one post group: every comment of the post is paired with every reaction
of the post, with a NULL placeholder when one side is empty. -/
def outerJoinRows (db : DB) (post_id : String) :
    List (Option CommentRow × Option ReactionRow) :=
  let cs := db.comments.filter (fun c => c.post_id == post_id)
  let rs := db.reactions.filter (fun r => r.post_id == post_id)
  let cs1 : List (Option CommentRow) := if cs.isEmpty then [none] else cs.map some
  let rs1 : List (Option ReactionRow) := if rs.isEmpty then [none] else rs.map some
  cs1.flatMap (fun c => rs1.map (fun r => (c, r)))

/-- `func.count(Comment.id)` of `_build_feed_query`: the number of joined rows
whose comment side is non-NULL. -/
def feedCommentCount (db : DB) (post_id : String) : Nat :=
  (outerJoinRows db post_id).countP (fun x => x.1.isSome)

/-- `func.count(Reaction.id)` of `_build_feed_query`: the number of joined rows
whose reaction side is non-NULL. -/
def feedReactionCount (db : DB) (post_id : String) : Nat :=
  (outerJoinRows db post_id).countP (fun x => x.2.isSome)

/-- One row of `_build_feed_query` output: post, author, and the two counts. -/
structure FeedRow where
  post : PostRow
  author : UserRow
  comment_count : Nat
  reaction_count : Nat
deriving DecidableEq, Repr

/-- `_build_feed_query`: posts by the given authors, inner-joined with their
author row, grouped per post with the two aggregate counts, ordered by
`created_at` descending. -/
def build_feed_query (db : DB) (author_ids : List String) : List FeedRow :=
  let posts := db.posts.filter (fun p => author_ids.contains p.author_id)
  let sorted := sortByCreatedDesc posts
  sorted.filterMap (fun p =>
    (db.users.find? (fun u => u.id == p.author_id)).map
      (fun u => ⟨p, u, feedCommentCount db p.id, feedReactionCount db p.id⟩))

/-- A feed item (`FeedItem` schema), restricted to the fields the claims
mention. -/
structure FeedItem where
  post : PostRow
  author : UserRow
  comment_count : Nat
  reaction_count : Nat
  has_reacted : Bool
  reaction_type : Option String
deriving DecidableEq, Repr

/-- The feed response (`FeedResponse` schema). -/
structure FeedResponse where
  items : List FeedItem
  total : Nat
  has_more : Bool
deriving DecidableEq, Repr

/-- `_create_feed_item`: attach the caller reaction lookup to a query row. -/
def create_feed_item (db : DB) (row : FeedRow) (user_id : String) : FeedItem :=
  let user_reaction := db.reactions.find?
    (fun r => r.post_id == row.post.id && r.user_id == user_id)
  { post := row.post
    author := row.author
    comment_count := row.comment_count
    reaction_count := row.reaction_count
    has_reacted := user_reaction.isSome
    reaction_type := user_reaction.map (fun r => r.reaction_type) }

/-- `get_home_feed`: resolve friend ids, filter to friends plus self, count
the groups, paginate with offset and limit, and build the items. -/
def get_home_feed (db : DB) (user_id : String) (skip limit : Nat) : FeedResponse :=
  let friend_ids := feed_get_friend_ids db user_id
  let author_ids := friend_ids ++ [user_id]
  let rows := build_feed_query db author_ids
  let total := rows.length
  let page := (rows.drop skip).take limit
  { items := page.map (fun row => create_feed_item db row user_id)
    total := total
    has_more := decide (total > skip + limit) }

/-! ## Concrete database states used by the evaluation theorems -/

/-- State used by the C4 witness: a symmetric friendship between `A` and `B`
together with the accepted request that created it. -/
def dbW4 : DB :=
  { friendships := [⟨"A", "B"⟩, ⟨"B", "A"⟩]
    friendship_requests := [⟨"r1", "A", "B", "accepted"⟩] }

/-- The claim C5 shape of the symmetry invariant: for every unordered pair of
distinct users the friendships table holds zero rows or exactly the two
mirrored rows, never exactly one. -/
def pairSym (t : List FriendshipRow) : Prop :=
  ∀ a b : String, a ≠ b →
    t.count ⟨a, b⟩ + t.count ⟨b, a⟩ = 0 ∨ t.count ⟨a, b⟩ + t.count ⟨b, a⟩ = 2

/-- The friendships-table invariant: row uniqueness (the table primary key is
the ordered pair) together with pair symmetry. -/
def tableOk (t : List FriendshipRow) : Prop :=
  t.Nodup ∧ pairSym t

/-- State for the C3 counterexample and witness: `B` has a pending request to
`A`, there is no friendship, and both users exist. -/
def dbC3 : DB :=
  { users := [⟨"A"⟩, ⟨"B"⟩]
    friendship_requests := [⟨"r1", "B", "A", "pending"⟩] }

/-- State for the C8 counterexample: post `P` has a top-level comment `c1`
and a reply `c2` (whose parent is `c1`). -/
def dbC8 : DB :=
  { posts := [⟨"P", "A", 0⟩]
    comments := [⟨"c1", "top", "A", "P", none⟩, ⟨"c2", "reply", "A", "P", some "c1"⟩] }

/-- State for the C8 witness: a post with no comments at all. -/
def dbW8 : DB :=
  { posts := [⟨"P", "A", 0⟩] }

/-- State for the C9 counterexample: `R` has rejected the request from `S`;
the rejected row is still present. -/
def dbC9 : DB :=
  { users := [⟨"S"⟩, ⟨"R"⟩]
    friendship_requests := [⟨"r1", "S", "R", "rejected"⟩] }

/-- The same state with the rejected row removed. -/
def dbC9del : DB :=
  { users := [⟨"S"⟩, ⟨"R"⟩] }

/-- State for the C9 witness: a rejected request from `S` to `R`. -/
def dbW9 : DB :=
  { users := [⟨"R"⟩]
    friendship_requests := [⟨"rq", "S", "R", "rejected"⟩] }

/-- Feed scenario: user `A` authored post `P`, which has two comments and
three reactions (by other users). -/
def dbC1 : DB :=
  { users := [⟨"A"⟩]
    posts := [⟨"P", "A", 0⟩]
    comments := [⟨"c1", "first", "A", "P", none⟩, ⟨"c2", "second", "A", "P", none⟩]
    reactions := [⟨"r1", "like", "u1", "P"⟩, ⟨"r2", "love", "u2", "P"⟩,
                  ⟨"r3", "haha", "u3", "P"⟩] }

/-- Friend-resolution scenario: the friendships table holds only the one
directed row `(B, A)`, and `B` authored a post. -/
def dbC2 : DB :=
  { users := [⟨"A"⟩, ⟨"B"⟩]
    posts := [⟨"PB", "B", 0⟩]
    friendships := [⟨"B", "A"⟩] }

/-- The same scenario with the symmetric pair of rows present. -/
def dbC2sym : DB :=
  { users := [⟨"A"⟩, ⟨"B"⟩]
    posts := [⟨"PB", "B", 0⟩]
    friendships := [⟨"B", "A"⟩, ⟨"A", "B"⟩] }

/-- Claim C1: the claim says each feed item carries `comment_count` equal to
the number of comment rows of the post and `reaction_count` equal to the
number of reaction rows.  Evaluating the embedded code at a post with two
comments and three reactions: both counts come out as `6`, because the two
chained LEFT OUTER JOINs of `_build_feed_query` produce the cross product
(2 times 3 rows) and `COUNT` runs over it.  The code therefore violates the
claim (and the meaning of its own `comment_count`/`reaction_count` labels). -/
theorem c1_code_evaluation :
    ((get_home_feed dbC1 "A" 0 20).items.map
        (fun i => (i.comment_count, i.reaction_count)) = [(6, 6)])
    ∧ (dbC1.comments.filter (fun c => c.post_id == "P")).length = 2
    ∧ (dbC1.reactions.filter (fun r => r.post_id == "P")).length = 3 :=
  ⟨rfl, rfl, rfl⟩

/-- Claim C2: the claim (and the docstring of `_get_friend_ids`) says the
friend set is resolved from both directions of the friendships table.
Evaluating the embedded code on a table holding only the row `(B, A)`:
the caller `A` gets an empty friend set — `coalesce(friend_id, user_id)`
always yields the non-null `friend_id` column, which for this row is `A`
itself and is excluded — so the post authored by `B` is invisible, while the
claim demands friend set `{B}`.  With the mirror row also present the code
does return `[B]`, confirming that only the `(caller, B)` direction is read. -/
theorem c2_code_evaluation :
    feed_get_friend_ids dbC2 "A" = []
    ∧ (⟨"B", "A"⟩ : FriendshipRow) ∈ dbC2.friendships
    ∧ (get_home_feed dbC2 "A" 0 20).items = []
    ∧ dbC2.posts = [⟨"PB", "B", 0⟩]
    ∧ feed_get_friend_ids dbC2sym "A" = ["B"] :=
  ⟨rfl, by decide, rfl, rfl, rfl⟩

/-! ## Generic list lemmas -/

/-- `find?` returns the head of the filtered list. -/
theorem cc_find_eq_filter_head {α : Type} (p : α → Bool) (l : List α) :
    l.find? p = (l.filter p).head? := by
  induction l with
  | nil => rfl
  | cons a l ih =>
    by_cases h : p a
    · rw [List.find?_cons_of_pos _ h, List.filter_cons_of_pos h]
      rfl
    · rw [List.find?_cons_of_neg _ h, List.filter_cons_of_neg h]
      exact ih

/-- Filtering a mapped list, when the map does not change the predicate. -/
theorem cc_filter_map_invariant {α : Type} (g : α → α) (p : α → Bool)
    (l : List α) (h : ∀ x, p (g x) = p x) :
    (l.map g).filter p = (l.filter p).map g := by
  induction l with
  | nil => rfl
  | cons a l ih =>
    by_cases ha : p a
    · simp [List.filter_cons, ha, h a, ih]
    · simp [List.filter_cons, ha, h a, ih]

/-- A nodup list counts each element as zero or one. -/
theorem cc_count_of_nodup {α : Type} [DecidableEq α] {t : List α}
    (h : t.Nodup) (a : α) : t.count a = if a ∈ t then 1 else 0 := by
  by_cases ha : a ∈ t
  · simp [ha, List.count_eq_one_of_mem h ha]
  · simp [ha, List.count_eq_zero.mpr ha]

/-! ## Claim C4 -/

/-- Claim C4: after `remove_friendship(A, B)` returns, `check_friendship`
between `A` and `B` is false, no friendship row in either direction remains,
and no request row between the pair (in either direction) remains; the
operation reports success.  Both deletions happen inside the single
`with db.begin()` transaction, which the embedding models as one atomic state
update. -/
theorem c4_claim (db : DB) (a b : String) :
    check_friendship ((remove_friendship db a b).1) a b = false
    ∧ (∀ f ∈ ((remove_friendship db a b).1).friendships,
        ¬ ((f.user_id = a ∧ f.friend_id = b) ∨ (f.user_id = b ∧ f.friend_id = a)))
    ∧ (∀ q ∈ ((remove_friendship db a b).1).friendship_requests,
        ¬ ((q.sender_id = a ∧ q.receiver_id = b) ∨ (q.sender_id = b ∧ q.receiver_id = a)))
    ∧ (remove_friendship db a b).2 = true := by
  have hnone : get_friendship ((remove_friendship db a b).1) a b = none := by
    apply List.find?_eq_none.mpr
    intro f hf
    have h2 := (List.mem_filter.mp hf).2
    simp only [Bool.not_eq_true'] at h2
    simp [h2]
  refine ⟨by simp [check_friendship, hnone], ?_, ?_, rfl⟩
  · intro f hf
    have h2 := (List.mem_filter.mp hf).2
    simp only [bidirB, Bool.not_eq_true', Bool.or_eq_false_iff,
      Bool.and_eq_false_iff] at h2
    simp only [beq_eq_false_iff_ne, ne_eq] at h2
    tauto
  · intro q hq
    have h2 := (List.mem_filter.mp hq).2
    simp only [betweenReqB, Bool.not_eq_true', Bool.or_eq_false_iff,
      Bool.and_eq_false_iff] at h2
    simp only [beq_eq_false_iff_ne, ne_eq] at h2
    tauto


/-- Witness for claim C4 at a concrete state. -/
theorem c4_witness :
    check_friendship ((remove_friendship dbW4 "A" "B").1) "A" "B" = false :=
  (c4_claim dbW4 "A" "B").1

/-! ## Repair-pass lemmas and claim C6 -/

theorem cc_mirror_mirror (f : FriendshipRow) : mirrorRow (mirrorRow f) = f := rfl

theorem cc_mirror_injective : Function.Injective mirrorRow := by
  intro a b h
  cases a; cases b
  simpa [mirrorRow, FriendshipRow.mk.injEq, and_comm] using h


theorem cc_contains_iff {a : FriendshipRow} {l : List FriendshipRow} :
    l.contains a = true ↔ a ∈ l := by
  simp [List.elem_iff]

theorem cc_contains_false {a : FriendshipRow} {l : List FriendshipRow} :
    l.contains a = false ↔ a ∉ l := by
  rw [Bool.eq_false_iff, Ne, cc_contains_iff]

theorem cc_repair_mem (t : List FriendshipRow) (f : FriendshipRow) :
    f ∈ fix_one_way_friendships t ↔ (f ∈ t ∨ mirrorRow f ∈ t) := by
  simp only [fix_one_way_friendships, List.mem_append, List.mem_map, List.mem_filter,
    List.mem_dedup, Bool.not_eq_true', cc_contains_false]
  constructor
  · rintro (h | ⟨g, ⟨hg, _⟩, rfl⟩)
    · exact Or.inl h
    · exact Or.inr (by simpa [cc_mirror_mirror] using hg)
  · intro h
    by_cases hf : f ∈ t
    · exact Or.inl hf
    · rcases h with h | h
      · exact absurd h hf
      · refine Or.inr ⟨mirrorRow f, ⟨by simpa [List.mem_dedup] using h, ?_⟩, cc_mirror_mirror f⟩
        simpa [cc_mirror_mirror, List.mem_dedup] using hf

theorem cc_repair_eq_of_sym (t : List FriendshipRow)
    (h : ∀ f ∈ t, mirrorRow f ∈ t) : fix_one_way_friendships t = t := by
  have hm : (t.dedup).filter (fun f => !((t.dedup).contains (mirrorRow f))) = [] := by
    apply List.filter_eq_nil_iff.mpr
    intro g hg
    have := h g (List.mem_dedup.mp hg)
    simp [cc_contains_iff, List.mem_dedup, this]
  show t ++ _ = t
  rw [hm]
  simp

theorem cc_repair_idem (t : List FriendshipRow) :
    fix_one_way_friendships (fix_one_way_friendships t) = fix_one_way_friendships t := by
  apply cc_repair_eq_of_sym
  intro f hf
  rw [cc_repair_mem] at hf ⊢
  rcases hf with h | h
  · exact Or.inr (by simpa [cc_mirror_mirror] using h)
  · exact Or.inl h

theorem cc_repair_added (t : List FriendshipRow) :
    ∃ added, fix_one_way_friendships t = t ++ added
      ∧ ∀ f ∈ added, mirrorRow f ∈ t ∧ f ∉ t := by
  refine ⟨_, rfl, ?_⟩
  intro f hf
  rcases List.mem_map.mp hf with ⟨g, hg, rfl⟩
  have hg2 := List.mem_filter.mp hg
  have hgmem : g ∈ t := List.mem_dedup.mp hg2.1
  have hgc := hg2.2
  simp only [Bool.not_eq_true', cc_contains_false,
    List.mem_dedup] at hgc
  exact ⟨by simpa [cc_mirror_mirror] using hgmem, hgc⟩

theorem cc_repair_nodup (t : List FriendshipRow) (h : t.Nodup) :
    (fix_one_way_friendships t).Nodup := by
  show (t ++ _).Nodup
  rw [List.nodup_append]
  refine ⟨h, ?_, ?_⟩
  · apply List.Nodup.map cc_mirror_injective
    exact (List.nodup_dedup t).filter _
  · intro x hx hx2
    rcases List.mem_map.mp hx2 with ⟨g, hg, rfl⟩
    have hgc := (List.mem_filter.mp hg).2
    simp only [Bool.not_eq_true', cc_contains_false,
      List.mem_dedup] at hgc
    exact hgc hx

/-- Claim C6: one run of `_fix_one_way_friendships` keeps every existing row,
adds exactly the mirrors of rows whose reverse is absent and nothing else
(membership afterwards is membership before, in either orientation), and a
second run immediately after changes nothing. -/
theorem c6_claim (t : List FriendshipRow) :
    (∃ added, fix_one_way_friendships t = t ++ added
      ∧ ∀ f ∈ added, mirrorRow f ∈ t ∧ f ∉ t)
    ∧ (∀ f, f ∈ fix_one_way_friendships t ↔ (f ∈ t ∨ mirrorRow f ∈ t))
    ∧ fix_one_way_friendships (fix_one_way_friendships t) = fix_one_way_friendships t :=
  ⟨cc_repair_added t, cc_repair_mem t, cc_repair_idem t⟩

/-- Witness for claim C6 at a concrete one-way table. -/
theorem c6_witness :
    fix_one_way_friendships (fix_one_way_friendships [(⟨"A", "B"⟩ : FriendshipRow)])
      = fix_one_way_friendships [(⟨"A", "B"⟩ : FriendshipRow)] :=
  (c6_claim [⟨"A", "B"⟩]).2.2

/-! ## Symmetry invariant and claim C5 -/



/-- Under row uniqueness, pair symmetry is equivalent to mirror-closed
membership. -/
theorem cc_pairSym_iff {t : List FriendshipRow} (h : t.Nodup) :
    pairSym t ↔ ∀ a b : String,
      ((⟨a, b⟩ : FriendshipRow) ∈ t ↔ (⟨b, a⟩ : FriendshipRow) ∈ t) := by
  constructor
  · intro hp a b
    by_cases hab : a = b
    · subst hab
      rfl
    · rcases hp a b hab with h0 | h2
      · have c1 : t.count ⟨a, b⟩ = 0 := by omega
        have c2 : t.count ⟨b, a⟩ = 0 := by omega
        simp [List.count_eq_zero.mp c1, List.count_eq_zero.mp c2]
      · rw [cc_count_of_nodup h ⟨a, b⟩, cc_count_of_nodup h ⟨b, a⟩] at h2
        by_cases m1 : (⟨a, b⟩ : FriendshipRow) ∈ t
          <;> by_cases m2 : (⟨b, a⟩ : FriendshipRow) ∈ t
          <;> simp [m1, m2] at h2 ⊢
  · intro hs a b _
    rw [cc_count_of_nodup h ⟨a, b⟩, cc_count_of_nodup h ⟨b, a⟩]
    by_cases m1 : (⟨a, b⟩ : FriendshipRow) ∈ t
    · have m2 := (hs a b).mp m1
      simp [m1, m2]
    · have m2 : (⟨b, a⟩ : FriendshipRow) ∉ t := fun hm => m1 ((hs a b).mpr hm)
      simp [m1, m2]

/-- If `get_friendship` finds nothing, neither directed row is present. -/
theorem cc_get_friendship_none {db : DB} {u f : String}
    (h : get_friendship db u f = none) :
    (⟨u, f⟩ : FriendshipRow) ∉ db.friendships
    ∧ (⟨f, u⟩ : FriendshipRow) ∉ db.friendships := by
  have hall := List.find?_eq_none.mp h
  constructor
  · intro hm
    exact hall _ hm (by simp [bidirB])
  · intro hm
    exact hall _ hm (by simp [bidirB])

/-- `create_friendship` preserves the friendships-table invariant. -/
theorem cc_create_tableOk (db : DB) (u f : String) (h : tableOk db.friendships) :
    tableOk ((create_friendship db u f).1.friendships) := by
  by_cases h1 : (get_friendship db u f).isSome
  · simp only [create_friendship, h1, if_true]
    exact h
  · have hnone : get_friendship db u f = none := by
      cases hg : get_friendship db u f
      · rfl
      · rw [hg] at h1
        simp at h1
    have h1f : (get_friendship db u f).isSome = false := by simp [hnone]
    by_cases h2 : u = f
    · subst h2
      have hred : (create_friendship db u u).1 = db := by
        unfold create_friendship
        split
        · rfl
        · simp
      rw [hred]
      exact h
    · have h2f : (u == f) = false := by simp [h2]
      simp only [create_friendship, h1f, h2f, Bool.false_eq_true, if_false]
      rcases cc_get_friendship_none hnone with ⟨hn1, hn2⟩
      have hnd : (db.friendships ++ [⟨u, f⟩, ⟨f, u⟩] : List FriendshipRow).Nodup := by
        rw [List.nodup_append]
        refine ⟨h.1, by simp [FriendshipRow.mk.injEq, h2], ?_⟩
        intro x hx hmem
        simp only [List.mem_cons, List.not_mem_nil, or_false] at hmem
        rcases hmem with rfl | rfl
        · exact hn1 hx
        · exact hn2 hx
      refine ⟨hnd, ?_⟩
      rw [cc_pairSym_iff hnd]
      intro a b
      have hsym := (cc_pairSym_iff h.1).mp h.2 a b
      simp only [List.mem_append, List.mem_cons, List.mem_singleton,
        FriendshipRow.mk.injEq, List.not_mem_nil, or_false]
      constructor
      · rintro (hm | ⟨rfl, rfl⟩ | ⟨rfl, rfl⟩)
        · exact Or.inl (hsym.mp hm)
        · exact Or.inr (Or.inr ⟨rfl, rfl⟩)
        · exact Or.inr (Or.inl ⟨rfl, rfl⟩)
      · rintro (hm | ⟨rfl, rfl⟩ | ⟨rfl, rfl⟩)
        · exact Or.inl (hsym.mpr hm)
        · exact Or.inr (Or.inr ⟨rfl, rfl⟩)
        · exact Or.inr (Or.inl ⟨rfl, rfl⟩)

/-- `remove_friendship` preserves the friendships-table invariant. -/
theorem cc_remove_tableOk (db : DB) (u f : String) (h : tableOk db.friendships) :
    tableOk ((remove_friendship db u f).1.friendships) := by
  have hnd : ((remove_friendship db u f).1.friendships).Nodup := h.1.filter _
  refine ⟨hnd, ?_⟩
  rw [cc_pairSym_iff hnd]
  intro a b
  have hsym := (cc_pairSym_iff h.1).mp h.2 a b
  show (⟨a, b⟩ : FriendshipRow) ∈ db.friendships.filter (fun x => !(bidirB u f x))
    ↔ (⟨b, a⟩ : FriendshipRow) ∈ db.friendships.filter (fun x => !(bidirB u f x))
  simp only [List.mem_filter, Bool.not_eq_true', bidirB, Bool.or_eq_false_iff,
    Bool.and_eq_false_iff, beq_eq_false_iff_ne, ne_eq]
  constructor
  · rintro ⟨hm, hc⟩
    exact ⟨hsym.mp hm, by tauto⟩
  · rintro ⟨hm, hc⟩
    exact ⟨hsym.mpr hm, by tauto⟩

/-- `update_friend_request` preserves the friendships-table invariant. -/
theorem cc_update_tableOk (db : DB) (req : FriendshipRequestRow) (st : String)
    (h : tableOk db.friendships) :
    tableOk ((update_friend_request db req st).1.friendships) := by
  unfold update_friend_request
  by_cases hst : (st == "accepted") = true
  · simp only [hst, if_true]
    exact cc_create_tableOk _ req.sender_id req.receiver_id h
  · simp only [hst, Bool.false_eq_true, if_false]
    exact h

/-- The repair pass establishes the invariant from row uniqueness alone. -/
theorem cc_repair_tableOk (t : List FriendshipRow) (hnd : t.Nodup) :
    tableOk (fix_one_way_friendships t) := by
  have hnd2 := cc_repair_nodup t hnd
  refine ⟨hnd2, ?_⟩
  rw [cc_pairSym_iff hnd2]
  intro a b
  rw [cc_repair_mem, cc_repair_mem]
  show _ ∈ t ∨ mirrorRow ⟨a, b⟩ ∈ t ↔ _ ∈ t ∨ mirrorRow ⟨b, a⟩ ∈ t
  simp only [mirrorRow]
  tauto

/-- Claim C5: friendship symmetry is an invariant at transaction boundaries:
each completed mutation — friendship creation, friendship removal, request
acceptance, and the repair pass — maps a friendships table in which every
distinct unordered pair has zero or exactly two mirrored rows (and rows are
unique, as the primary key guarantees) to a table with the same property. -/
theorem c5_claim (db : DB) (u f st : String) (req : FriendshipRequestRow)
    (h : tableOk db.friendships) :
    tableOk ((create_friendship db u f).1.friendships)
    ∧ tableOk ((remove_friendship db u f).1.friendships)
    ∧ tableOk ((update_friend_request db req st).1.friendships)
    ∧ tableOk (fix_one_way_friendships db.friendships) :=
  ⟨cc_create_tableOk db u f h, cc_remove_tableOk db u f h,
   cc_update_tableOk db req st h, cc_repair_tableOk db.friendships h.1⟩

/-- Witness for claim C5: creating a friendship in the empty state yields an
invariant-satisfying table. -/
theorem c5_witness :
    tableOk ((create_friendship ({} : DB) "A" "B").1.friendships) :=
  (c5_claim {} "A" "B" "accepted" ⟨"r", "A", "B", "pending"⟩
    ⟨List.nodup_nil, fun a b _ => Or.inl (by simp)⟩).1

/-! ## Reactions: claim C7 -/

/-- One call to `create_or_update_reaction` leaves exactly one reaction row
for the `(user, post)` pair, carrying the submitted type, provided the pair
had at most one row before (the upsert invariant of the table). -/
theorem cc_react_step (db : DB) (p t u i : String)
    (h : (db.reactions.filter
        (fun r => r.user_id == u && r.post_id == p)).length ≤ 1) :
    ∃ x : ReactionRow,
      ((create_or_update_reaction db p t u i).1.reactions.filter
          (fun r => r.user_id == u && r.post_id == p)) = [x]
      ∧ x.reaction_type = t := by
  have hfind : get_reaction db u p
      = (db.reactions.filter (fun r => r.user_id == u && r.post_id == p)).head? :=
    cc_find_eq_filter_head _ _
  cases hfl : db.reactions.filter (fun r => r.user_id == u && r.post_id == p) with
  | nil =>
    rw [hfl] at hfind
    simp only [List.head?_nil] at hfind
    refine ⟨⟨i, t, u, p⟩, ?_, rfl⟩
    unfold create_or_update_reaction
    rw [hfind]
    show (db.reactions ++ [(⟨i, t, u, p⟩ : ReactionRow)]).filter _ = _
    rw [List.filter_append, hfl]
    simp
  | cons x xs =>
    cases xs with
    | nil =>
      rw [hfl] at hfind
      simp only [List.head?_cons] at hfind
      refine ⟨{x with reaction_type := t}, ?_, rfl⟩
      unfold create_or_update_reaction
      rw [hfind]
      show (db.reactions.map _).filter _ = _
      rw [cc_filter_map_invariant _ _ _ (fun r => by
        by_cases hid : r.id == x.id <;> simp [hid]), hfl]
      simp
    | cons y rest =>
      rw [hfl] at h
      simp at h

/-- Claim C7: two successive reaction submissions by the same user on the
same post (with any valid reaction types) leave exactly one reaction row for
the pair, and its type is the one of the later call; stated for any state
satisfying the one-row-per-pair upsert invariant. -/
theorem c7_claim (db : DB) (u p t1 t2 id1 id2 : String)
    (_hv1 : t1 ∈ allowedReactionTypes) (_hv2 : t2 ∈ allowedReactionTypes)
    (hinv : (db.reactions.filter
        (fun r => r.user_id == u && r.post_id == p)).length ≤ 1) :
    ((create_or_update_reaction
          ((create_or_update_reaction db p t1 u id1).1) p t2 u id2).1.reactions.filter
        (fun r => r.user_id == u && r.post_id == p)).length = 1
    ∧ ∀ r ∈ (create_or_update_reaction
          ((create_or_update_reaction db p t1 u id1).1) p t2 u id2).1.reactions.filter
        (fun r => r.user_id == u && r.post_id == p), r.reaction_type = t2 := by
  rcases cc_react_step db p t1 u id1 hinv with ⟨x, hx, _⟩
  have h1 : (((create_or_update_reaction db p t1 u id1).1).reactions.filter
      (fun r => r.user_id == u && r.post_id == p)).length ≤ 1 := by
    rw [hx]
    simp
  rcases cc_react_step _ p t2 u id2 h1 with ⟨y, hy, hyt⟩
  rw [hy]
  refine ⟨rfl, ?_⟩
  intro r hr
  simp only [List.mem_singleton] at hr
  rw [hr]
  exact hyt

/-- Witness for claim C7: reacting with `like` then `love` in the empty
state. -/
theorem c7_witness :
    ((create_or_update_reaction
          ((create_or_update_reaction ({} : DB) "p" "like" "u" "i1").1)
          "p" "love" "u" "i2").1.reactions.filter
        (fun r => r.user_id == "u" && r.post_id == "p")).length = 1 :=
  (c7_claim {} "u" "p" "like" "love" "i1" "i2" (by decide) (by decide)
    (by decide)).1

/-! ## Claim C10: get_friends error behaviour -/

/-- Claim C10: `get_friends` is total — it never propagates an exception.
Any internal failure of the friendship query (the `Except.error` outcome)
yields the empty list; every returned user exists in the users table, so a
friendship row whose counterpart user record is absent is silently skipped
(`b` names such an absent counterpart); and the failure outcome is
indistinguishable from having no friends. -/
theorem c10_claim (e : String) (rows : List FriendshipRow)
    (users : List UserRow) (uid b : String)
    (hb : ∀ u ∈ users, u.id ≠ b) :
    get_friends (.error e) users uid = []
    ∧ (∀ u ∈ get_friends (.ok rows) users uid, u ∈ users ∧ u.id ≠ b)
    ∧ get_friends (.error e) users uid = get_friends (.ok []) users uid := by
  refine ⟨rfl, ?_, rfl⟩
  intro u hu
  simp only [get_friends] at hu
  rcases List.mem_filterMap.mp hu with ⟨i, _, hfindu⟩
  have hmem := List.mem_of_find?_eq_some hfindu
  exact ⟨hmem, hb u hmem⟩

/-- Witness for claim C10: a failing query yields the empty list. -/
theorem c10_witness :
    get_friends (.error "relation friendships does not exist")
      [(⟨"A"⟩ : UserRow)] "A" = [] :=
  (c10_claim "relation friendships does not exist" [⟨"B", "A"⟩] [⟨"A"⟩]
    "A" "B" (by decide)).1

/-! ## Claim C3: reverse-request merge semantics -/

/-- A filter that returned a singleton: the element satisfies the predicate,
is in the list, and is the only satisfier. -/
theorem cc_filter_singleton_unique {α : Type} {p : α → Bool} {l : List α} {x : α}
    (h : l.filter p = [x]) :
    x ∈ l ∧ p x = true ∧ ∀ y ∈ l, p y = true → y = x := by
  have hx : x ∈ l.filter p := by
    rw [h]
    exact List.mem_singleton.mpr rfl
  have hx2 := List.mem_filter.mp hx
  refine ⟨hx2.1, hx2.2, ?_⟩
  intro y hy hpy
  have hy2 : y ∈ l.filter p := List.mem_filter.mpr ⟨hy, hpy⟩
  rw [h] at hy2
  exact List.mem_singleton.mp hy2

/-- Filtering by a stronger predicate that the singleton still satisfies
returns the same singleton. -/
theorem cc_filter_sub_singleton {α : Type} {p q : α → Bool} {l : List α} {x : α}
    (himp : ∀ y, q y = true → p y = true)
    (h : l.filter p = [x]) (hqx : q x = true) :
    l.filter q = [x] := by
  have hsub : List.Sublist (l.filter q) (l.filter p) :=
    List.monotone_filter_right l himp
  rw [h] at hsub
  have hlen := hsub.length_le
  have hx : x ∈ l.filter q :=
    List.mem_filter.mpr ⟨(cc_filter_singleton_unique h).1, hqx⟩
  cases hq : l.filter q with
  | nil =>
    rw [hq] at hx
    cases hx
  | cons z zs =>
    rw [hq] at hlen hx
    simp only [List.length_cons, List.length_cons, List.length_nil] at hlen
    have hzs : zs = [] := List.eq_nil_of_length_eq_zero (by omega)
    subst hzs
    have hxz := List.mem_singleton.mp hx
    rw [hxz]


/-- Claim C3 counterexample: with a pending reverse request from `B` to `A`
and no friendship, the API-level send operation does NOT succeed with an
auto-accept — it refuses with a conflict error, so the claimed end-to-end
merge behaviour does not happen. -/
theorem c3_counterexample :
    send_friend_request dbC3 "A" "B" "r2"
      = .error (.badRequest "This user has already sent you a friend request")
    ∧ (send_friend_request dbC3 "A" "B" "r2").isOk = false :=
  ⟨rfl, rfl⟩

/-- Reduction of `create_friendship` in the successful branch. -/
theorem cc_create_fr_eq (db : DB) (u f : String)
    (h1 : get_friendship db u f = none) (h2 : (u == f) = false) :
    (create_friendship db u f).1
      = {db with friendships := db.friendships ++ [⟨u, f⟩, ⟨f, u⟩]} := by
  unfold create_friendship
  rw [h1]
  simp [h2]

/-- Claim C3 (amended): for distinct users `A`, `B` with a pending friend
request from `B` to `A` (the only request row between them) and no existing
friendship, the API-level send operation refuses with a conflict error; the
service-level `create_friend_request`, if invoked directly, auto-accepts the
reverse request instead of creating a duplicate: afterwards both directed
friendship rows exist and no pending request remains between `A` and `B`. -/
theorem c3_amended (db : DB) (a b nid : String) (rev : FriendshipRequestRow)
    (hab : a ≠ b)
    (hnof : ∀ f ∈ db.friendships,
        ¬ ((f.user_id = a ∧ f.friend_id = b) ∨ (f.user_id = b ∧ f.friend_id = a)))
    (hreq : db.friendship_requests.filter (betweenReqB a b) = [rev])
    (hs : rev.sender_id = b) (hr : rev.receiver_id = a)
    (_hp : rev.status = "pending")
    (huser : db.users.any (fun u => u.id == b) = true) :
    send_friend_request db a b nid
      = .error (.badRequest "This user has already sent you a friend request")
    ∧ (⟨a, b⟩ : FriendshipRow) ∈ ((create_friend_request db b a nid).1).friendships
    ∧ (⟨b, a⟩ : FriendshipRow) ∈ ((create_friend_request db b a nid).1).friendships
    ∧ ∀ q ∈ ((create_friend_request db b a nid).1).friendship_requests,
        ((q.sender_id = a ∧ q.receiver_id = b) ∨ (q.sender_id = b ∧ q.receiver_id = a))
        → q.status ≠ "pending" := by
  have huniq := cc_filter_singleton_unique hreq
  have habf : (a == b) = false := by simp [hab]
  -- no same-direction request row exists
  have hfwd : get_friend_request db a b = none := by
    apply List.find?_eq_none.mpr
    intro q hq hpq
    have hbet : betweenReqB a b q = true := by
      simp only [betweenReqB, Bool.or_eq_true]
      exact Or.inl hpq
    have hqrev := huniq.2.2 q hq hbet
    rw [hqrev] at hpq
    simp only [Bool.and_eq_true, beq_iff_eq] at hpq
    exact hab (hpq.1 ▸ hs ▸ rfl)
  -- the reverse-direction lookup finds exactly the pending request
  have hrevp : (rev.sender_id == b && rev.receiver_id == a) = true := by
    simp [hs, hr]
  have hrevfilter : db.friendship_requests.filter
      (fun q => q.sender_id == b && q.receiver_id == a) = [rev] := by
    refine cc_filter_sub_singleton ?_ hreq hrevp
    intro y hy
    simp only [betweenReqB, Bool.or_eq_true]
    exact Or.inr hy
  have hbwd : get_friend_request db b a = some rev := by
    rw [get_friend_request, cc_find_eq_filter_head, hrevfilter]
    rfl
  -- no friendship row in either direction
  have hnofriend : get_friendship db a b = none := by
    apply List.find?_eq_none.mpr
    intro f hf hbf
    simp only [bidirB, Bool.or_eq_true, Bool.and_eq_true, beq_iff_eq] at hbf
    exact hnof f hf hbf
  -- the API-level refusal
  have hapi : send_friend_request db a b nid
      = .error (.badRequest "This user has already sent you a friend request") := by
    unfold send_friend_request
    rw [huser]
    simp only [Bool.not_true, Bool.false_eq_true, if_false, habf, check_friendship,
      hnofriend, Option.isSome_none, hfwd, hbwd, Option.isSome_some, if_true]
  -- the service-level merge
  have hred : (create_friend_request db b a nid).1
      = (create_friendship
          {db with friendship_requests := accept_reverse_requests db rev.id} a b).1 := by
    unfold create_friend_request
    rw [hfwd, hbwd]
    rfl
  have hnofriend2 : get_friendship
      {db with friendship_requests := accept_reverse_requests db rev.id} a b = none :=
    hnofriend
  have hcf : (create_friend_request db b a nid).1.friendships
      = db.friendships ++ [⟨a, b⟩, ⟨b, a⟩] := by
    rw [hred, cc_create_fr_eq _ a b hnofriend2 habf]
  have hcr : (create_friend_request db b a nid).1.friendship_requests
      = accept_reverse_requests db rev.id := by
    rw [hred, cc_create_fr_eq _ a b hnofriend2 habf]
  refine ⟨hapi, ?_, ?_, ?_⟩
  · rw [hcf]
    simp
  · rw [hcf]
    simp
  · intro q hq hbet
    rw [hcr] at hq
    unfold accept_reverse_requests at hq
    rcases List.mem_map.mp hq with ⟨x, hx, hgx⟩
    by_cases hid : (x.id == rev.id) = true
    · rw [hid] at hgx
      simp only [if_true] at hgx
      rw [← hgx]
      simp
    · have hid2 : (x.id == rev.id) = false := by simpa using hid
      simp only [hid2, Bool.false_eq_true, if_false] at hgx
      have hbetx : betweenReqB a b x = true := by
        rw [hgx]
        simp only [betweenReqB, Bool.or_eq_true, Bool.and_eq_true, beq_iff_eq]
        tauto
      have hxrev := huniq.2.2 x hx hbetx
      rw [hxrev] at hid2
      simp at hid2

/-- Witness for the amended claim C3 at the concrete state `dbC3`. -/
theorem c3_witness :
    (⟨"A", "B"⟩ : FriendshipRow)
      ∈ ((create_friend_request dbC3 "B" "A" "r2").1).friendships :=
  (c3_amended dbC3 "A" "B" "r2" ⟨"r1", "B", "A", "pending"⟩ (by decide)
    (by decide) rfl rfl rfl rfl rfl).2.1

/-! ## Claim C8: comment-create validation -/


/-- Claim C8 counterexample: a request whose parent `c2` is itself a reply is
NOT refused — the endpoint accepts it and stores a depth-two comment, so the
one-level-nesting part of the claim fails on the code. -/
theorem c8_counterexample :
    ((dbC8.comments.find? (fun c => c.id == "c2")).map (fun c => c.parent_id))
      = some (some "c1")
    ∧ create_new_comment dbC8 "P" "deep reply" (some "c2") "A" "c3"
      = .ok ({dbC8 with comments :=
            dbC8.comments ++ [⟨"c3", "deep reply", "A", "P", some "c2"⟩]},
          ⟨"c3", "deep reply", "A", "P", some "c2"⟩) :=
  ⟨rfl, rfl⟩

/-- Claim C8 (amended): for a non-empty submitted `parent_id`, the endpoint
fails with `404` when the parent comment does not exist and with `400` when
the parent belongs to a different post; when the parent exists on the same
post the comment is created — regardless of whether the parent is itself a
reply, since no check inspects the parent own `parent_id`. -/
theorem c8_amended (db : DB) (post_id content pid author nid : String)
    (hpost : db.posts.any (fun p => p.id == post_id) = true)
    (hpid : pid ≠ "") :
    ((db.comments.find? (fun c => c.id == pid) = none) →
      create_new_comment db post_id content (some pid) author nid
        = .error (.notFound "Comment not found"))
    ∧ (∀ c : CommentRow, db.comments.find? (fun c2 => c2.id == pid) = some c →
        post_id ≠ "" → c.post_id ≠ post_id →
        create_new_comment db post_id content (some pid) author nid
          = .error (.badRequest "Comment does not belong to the specified post"))
    ∧ (∀ c : CommentRow, db.comments.find? (fun c2 => c2.id == pid) = some c →
        c.post_id = post_id →
        create_new_comment db post_id content (some pid) author nid
          = .ok ({db with comments :=
                db.comments ++ [⟨nid, content, author, post_id, some pid⟩]},
              ⟨nid, content, author, post_id, some pid⟩)) := by
  have hpidb : (pid != "") = true := by simp [hpid]
  have hval : validate_post db post_id = .ok () := by
    unfold validate_post
    rw [hpost]
    simp
  refine ⟨?_, ?_, ?_⟩
  · intro hnone
    unfold create_new_comment
    rw [hval]
    simp only [hpidb, if_true]
    unfold validate_comment
    rw [hnone]
  · intro c hfound hpost_ne hc
    have hcb : (post_id != "" && c.post_id != post_id) = true := by
      simp [hpost_ne, hc]
    unfold create_new_comment
    rw [hval]
    simp only [hpidb, if_true]
    unfold validate_comment
    rw [hfound]
    simp only [hcb, if_true]
  · intro c hfound hc
    have hcb : (post_id != "" && c.post_id != post_id) = false := by
      simp [hc]
    unfold create_new_comment
    rw [hval]
    simp only [hpidb, if_true]
    unfold validate_comment
    rw [hfound]
    simp only [hcb, Bool.false_eq_true, if_false]
    rfl


/-- Witness for the amended claim C8: a dangling parent id is refused. -/
theorem c8_witness :
    create_new_comment dbW8 "P" "hello" (some "zz") "A" "c9"
      = .error (.notFound "Comment not found") :=
  (c8_amended dbW8 "P" "hello" "zz" "A" "c9" rfl (by decide)).1 rfl

/-! ## Claim C9: refusal on any existing same-direction request -/



/-- Claim C9 counterexample: the sender can delete the rejected request row
through the cancel endpoint — an operation other than `remove_friendship` —
after which a new request from `S` to `R` succeeds, refuting the claim that
only `remove_friendship` clears the refusal. -/
theorem c9_counterexample :
    (send_friend_request dbC9 "S" "R" "r2").isOk = false
    ∧ cancel_friend_request dbC9 "r1" "S"
      = .ok (dbC9del, ⟨"r1", "S", "R", "rejected"⟩)
    ∧ (send_friend_request dbC9del "S" "R" "r2").isOk = true :=
  ⟨rfl, rfl, rfl⟩

/-- Claim C9 (amended): `send_friend_request(S, R)` is refused with a
conflict error whenever any request row from `S` to `R` exists, regardless of
its status — in particular a rejected one keeps later sends refused while the
row remains; the row is deleted by `remove_friendship` or by the sender
cancelling it through the cancel endpoint. -/
theorem c9_amended (db : DB) (s r nid : String) (q : FriendshipRequestRow)
    (huser : db.users.any (fun u => u.id == r) = true)
    (hne : s ≠ r)
    (hnof : ∀ f ∈ db.friendships,
        ¬ ((f.user_id = s ∧ f.friend_id = r) ∨ (f.user_id = r ∧ f.friend_id = s)))
    (hq : q ∈ db.friendship_requests)
    (hqs : q.sender_id = s) (hqr : q.receiver_id = r) :
    send_friend_request db s r nid
      = .error (.badRequest "Friend request already sent") := by
  have hneb : (s == r) = false := by simp [hne]
  have hnofriend : get_friendship db s r = none := by
    apply List.find?_eq_none.mpr
    intro f hf hbf
    simp only [bidirB, Bool.or_eq_true, Bool.and_eq_true, beq_iff_eq] at hbf
    exact hnof f hf hbf
  have hexist : (get_friend_request db s r).isSome = true := by
    rw [get_friend_request]
    apply List.find?_isSome.mpr
    exact ⟨q, hq, by simp [hqs, hqr]⟩
  unfold send_friend_request
  rw [huser]
  simp only [Bool.not_true, Bool.false_eq_true, if_false, hneb, check_friendship,
    hnofriend, Option.isSome_none, hexist, if_true]


/-- Witness for the amended claim C9: after rejection the next send is still
refused. -/
theorem c9_witness :
    send_friend_request dbW9 "S" "R" "n2"
      = .error (.badRequest "Friend request already sent") :=
  c9_amended dbW9 "S" "R" "n2" ⟨"rq", "S", "R", "rejected"⟩ rfl (by decide)
    (by decide) (by decide) rfl rfl
